import Mathlib

/-!
Verification of the thai-smartcard Thai ID card reader adapter.

The definitions below are a shallow embedding of the TypeScript adapter
(`ThaiIDCardReader` and its helpers).  Byte buffers are `List Nat`
(each entry a byte value), strings are Lean `String`s, and the opaque
native card channel is a function from (command, responseLength, attempt)
to either a channel fault (an error message, as in the source where
`card.transmitWithRetry` may throw) or a `TransmitResult`.
-/

set_option maxRecDepth 4000

/-- Result of one native transmit: response data plus the two status word bytes. -/
structure TransmitResult where
  data : List Nat
  sw1 : Nat
  sw2 : Nat
deriving DecidableEq

/-- Abstract card channel: maps (command bytes, responseLength, attempt index within
one sendAPDU call) to a channel fault or a transmit result.  This models the
`card.transmitWithRetry(command, responseLength, 1, 100)` call inside `sendAPDU`,
which either throws (channel fault) or returns a `TransmitResult`. -/
def Channel : Type := List Nat → Nat → Nat → Except String TransmitResult

/-- Outcome of one `sendAPDU` call: the returned data or the thrown error, the
number of 100 ms retry waits performed, and the number of channel transmits made. -/
structure SendOutcome where
  result : Except String (List Nat)
  waits : Nat
  transmits : Nat

namespace APDU_COMMANDS

def SELECT : List Nat := [0x00, 0xA4, 0x04, 0x00, 0x08, 0xA0, 0x00, 0x00, 0x00, 0x54, 0x48, 0x00, 0x01]
def CID : List Nat := [0x80, 0xB0, 0x00, 0x04, 0x02, 0x00, 0x0D]
def THAI_NAME : List Nat := [0x80, 0xB0, 0x00, 0x11, 0x02, 0x00, 0x64]
def ENG_NAME : List Nat := [0x80, 0xB0, 0x00, 0x75, 0x02, 0x00, 0x64]
def BIRTH : List Nat := [0x80, 0xB0, 0x00, 0xD9, 0x02, 0x00, 0x08]
def GENDER : List Nat := [0x80, 0xB0, 0x00, 0xE1, 0x02, 0x00, 0x01]
def ADDRESS : List Nat := [0x80, 0xB0, 0x15, 0x79, 0x02, 0x00, 0x64]
def ISSUE : List Nat := [0x80, 0xB0, 0x01, 0x67, 0x02, 0x00, 0x08]
def EXPIRE : List Nat := [0x80, 0xB0, 0x01, 0x6F, 0x02, 0x00, 0x08]

end APDU_COMMANDS

/-- Photo chunk command: `Buffer.from([0x80, 0xB0, 0x7A, 0x5A + n, 0x02, 0x00, 0xFF])`. -/
def photoPartCmd (n : Nat) : List Nat := [0x80, 0xB0, 0x7A, 0x5A + n, 0x02, 0x00, 0xFF]

namespace ERROR_MESSAGES

def NO_CARD : String := "ไม่พบบัตร"
def CARD_NOT_POWERED : String := "บัตรไม่ได้รับไฟ กรุณาเสียบบัตรใหม่หรือตรวจสอบเครื่องอ่านบัตร"
def CARD_NOT_RESPONDING : String := "บัตรไม่ตอบสนอง กรุณาเสียบบัตรใหม่"
def TIMEOUT : String := "Timeout: บัตรไม่ตอบสนอง กรุณาเสียบบัตรใหม่"
def NO_READERS : String := "ไม่พบเครื่องอ่านบัตร กรุณาตรวจสอบว่าเครื่องอ่านบัตรถูกเสียบแล้ว"
def GENERIC_ERROR : String := "เกิดข้อผิดพลาดในการอ่านบัตร"

end ERROR_MESSAGES

/-- Hexadecimal digit character, lowercase as produced by JS `toString(16)`. -/
def hexDigitChar (n : Nat) : Char :=
  if n < 10 then Char.ofNat (48 + n) else Char.ofNat (87 + n)

/-- Hexadecimal rendering of a byte, as `sw.toString(16).padStart(2, 0-char)` for a byte value. -/
def hexByte (n : Nat) : String :=
  String.mk [hexDigitChar (n / 16 % 16), hexDigitChar (n % 16)]

/-- Error message thrown by `sendAPDU` on a terminal unacceptable status word. -/
def apduErrorMsg (sw1 sw2 : Nat) : String :=
  "APDU Error: SW=" ++ hexByte sw1 ++ hexByte sw2

/-- Status acceptance test from `sendAPDU`:
`result.sw1 === 0x90 && result.sw2 === 0x00 || result.sw1 === 0x61`. -/
def acceptStatus (r : TransmitResult) : Prop :=
  (r.sw1 = 0x90 ∧ r.sw2 = 0x00) ∨ r.sw1 = 0x61

instance (r : TransmitResult) : Decidable (acceptStatus r) := by
  unfold acceptStatus; infer_instance

/-- Body of the `for (let attempt = 0; attempt < maxRetries; attempt++)` loop of
`sendAPDU`, with `fuel = maxRetries - attempt` remaining iterations.  A successful
transmit with an acceptable status returns the data; any other status or a channel
fault waits 100 ms and retries while `attempt < maxRetries - 1`, and is rethrown on
the last attempt. -/
def sendAPDUAux (ch : Channel) (cmd : List Nat) (responseLength maxRetries attempt : Nat) :
    Nat → SendOutcome
  | 0 => ⟨Except.error "Failed to send APDU command", 0, 0⟩
  | fuel + 1 =>
    match ch cmd responseLength attempt with
    | Except.ok r =>
      if acceptStatus r then
        ⟨Except.ok r.data, 0, 1⟩
      else if attempt < maxRetries - 1 then
        let rest := sendAPDUAux ch cmd responseLength maxRetries (attempt + 1) fuel
        ⟨rest.result, rest.waits + 1, rest.transmits + 1⟩
      else
        ⟨Except.error (apduErrorMsg r.sw1 r.sw2), 0, 1⟩
    | Except.error e =>
      if attempt < maxRetries - 1 then
        let rest := sendAPDUAux ch cmd responseLength maxRetries (attempt + 1) fuel
        ⟨rest.result, rest.waits + 1, rest.transmits + 1⟩
      else
        ⟨Except.error e, 0, 1⟩

/-- The adapter's `sendAPDU(card, command, responseLength, maxRetries)`. -/
def sendAPDU (ch : Channel) (cmd : List Nat) (responseLength maxRetries : Nat) : SendOutcome :=
  sendAPDUAux ch cmd responseLength maxRetries 0 maxRetries

/-- Whitespace set of JS `String.prototype.trim` and of the regex class for spaces. -/
def isJsWhitespaceChar (c : Char) : Bool :=
  let n := c.toNat
  (decide (9 ≤ n) && decide (n ≤ 13)) || n == 32 || n == 0xA0 || n == 0x1680 ||
    (decide (0x2000 ≤ n) && decide (n ≤ 0x200A)) || n == 0x2028 || n == 0x2029 ||
    n == 0x202F || n == 0x205F || n == 0x3000 || n == 0xFEFF

/-- JS `String.prototype.trim`: strip whitespace from both ends. -/
def jsTrim (s : String) : String :=
  String.mk (((s.data.dropWhile isJsWhitespaceChar).reverse.dropWhile isJsWhitespaceChar).reverse)

/-- Padding test of the tail-trimming loop in `parseThaiText`:
`data[endIndex - 1] === 0 || data[endIndex - 1] === 0x23`. -/
def isPadByte (b : Nat) : Bool := b == 0 || b == 0x23

/-- Tail-trimming loop of `parseThaiText`: decrement `endIndex` while the last byte
is NUL (0x00) or the pad marker 0x23, then slice to `endIndex`. -/
def trimTrailingPad (data : List Nat) : List Nat :=
  (data.reverse.dropWhile isPadByte).reverse

/-- Model of the external iconv-lite TIS-620 single-byte decode table used by
`iconv.decode(cleanData, tis620)`: ASCII bytes map to themselves, the Thai range
maps into the Thai Unicode block, and unmapped bytes yield the replacement
character.  The table is total, so the decode never throws. -/
def tis620DecodeByte (b : Nat) : Char :=
  if b < 0x80 then Char.ofNat b
  else if (0xA1 ≤ b ∧ b ≤ 0xDA) ∨ (0xDF ≤ b ∧ b ≤ 0xFB) then Char.ofNat (0x0E00 + (b - 0xA0))
  else Char.ofNat 0xFFFD

/-- Characters removed by the control-character strip in `parseThaiText`
(the regex class covering 0x00-0x08, 0x0B, 0x0C, 0x0E-0x1F, 0x7F). -/
def isStrippedControl (c : Char) : Bool :=
  let n := c.toNat
  decide (n ≤ 8) || n == 0x0B || n == 0x0C || (decide (0x0E ≤ n) && decide (n ≤ 0x1F)) || n == 0x7F

/-- The adapter's `parseThaiText`: trim trailing padding, decode TIS-620,
strip control characters, trim whitespace. -/
def parseThaiText (data : List Nat) : String :=
  if data.length = 0 then ""
  else
    let cleanData := trimTrailingPad data
    if cleanData.length = 0 then ""
    else
      jsTrim (String.mk ((cleanData.map tis620DecodeByte).filter (fun c => !isStrippedControl c)))

/-- Fallback decode loop of `parseThaiText` (the catch branch): bytes below 0x80
pass through only if printable or a line break; bytes in the TIS-620 Thai range map
by fixed offset into the Thai Unicode block; every other byte is skipped. -/
def tis620Fallback : List Nat → List Char
  | [] => []
  | byte :: rest =>
    if byte < 0x80 then
      if 32 ≤ byte ∨ byte = 10 ∨ byte = 13 then
        Char.ofNat byte :: tis620Fallback rest
      else
        tis620Fallback rest
    else if 0xA1 ≤ byte ∧ byte ≤ 0xFB then
      Char.ofNat (0x0E00 + (byte - 0xA1)) :: tis620Fallback rest
    else
      tis620Fallback rest

/-- Fallback decode path of `parseThaiText` applied to the already tail-trimmed
buffer, including the final `.trim()`. -/
def parseThaiTextFallback (cleanData : List Nat) : String :=
  jsTrim (String.mk (tis620Fallback cleanData))

/-- Byte-level description of the fallback mapping, written from the claim:
printable or line-break ASCII passes through, bytes in [0xA1, 0xFB] map by fixed
offset into the Thai Unicode block, all other byte values are dropped. -/
def fallbackByteSpec (b : Nat) : Option Char :=
  if b < 0x80 then
    if 32 ≤ b ∨ b = 10 ∨ b = 13 then some (Char.ofNat b) else none
  else if 0xA1 ≤ b ∧ b ≤ 0xFB then some (Char.ofNat (0x0E00 + (b - 0xA1)))
  else none

/-- Node `buffer.toString(ascii)`: every byte is masked to 7 bits; total, never throws. -/
def asciiDecode (l : List Nat) : String :=
  String.mk (l.map (fun b => Char.ofNat (b % 128)))

/-- The adapter's `formatDate`: require 8 bytes, decode the three slices as ASCII
and join them with dashes. -/
def formatDate (data : List Nat) : String :=
  if data.length < 8 then ""
  else
    asciiDecode (data.take 4) ++ "-" ++ asciiDecode ((data.drop 4).take 2) ++ "-" ++
      asciiDecode ((data.drop 6).take 2)

/-- The adapter's `parseGender`. -/
def parseGender (data : List Nat) : String :=
  match data with
  | [] => ""
  | genderByte :: _ =>
    if genderByte = 1 ∨ genderByte = 0x31 then "ชาย"
    else if genderByte = 2 ∨ genderByte = 0x32 then "หญิง"
    else ""

/-- Expiry-field logic of `readCardData`: a leading zero byte yields the lifetime
sentinel, otherwise the buffer goes through `formatDate`. -/
def parseExpiry (expireData : List Nat) : String :=
  match expireData with
  | b :: rest => if b = 0 then "ตลอดชีพ" else formatDate (b :: rest)
  | [] => formatDate []

/-- Citizen-id field logic of `readCardData`: require 13 bytes, decode as ASCII,
drop NUL and whitespace characters. -/
def parseCitizenId (cidData : List Nat) : String :=
  if 13 ≤ cidData.length then
    String.mk (((cidData.take 13).map (fun b => Char.ofNat (b % 128))).filter
      (fun c => !(c == Char.ofNat 0) && !isJsWhitespaceChar c))
  else ""

/-- Base64 alphabet of Node `buffer.toString(base64)`. -/
def base64Char (n : Nat) : Char :=
  if n < 26 then Char.ofNat (65 + n)
  else if n < 52 then Char.ofNat (97 + (n - 26))
  else if n < 62 then Char.ofNat (48 + (n - 52))
  else if n = 62 then Char.ofNat 43
  else Char.ofNat 47

/-- Standard base64 encoding with padding, as Node `buffer.toString(base64)`. -/
def base64Encode : List Nat → String
  | [] => ""
  | [a] =>
    let a1 := a % 256
    String.mk [base64Char (a1 / 4), base64Char (a1 % 4 * 16), '=', '=']
  | [a, b] =>
    let a1 := a % 256
    let b1 := b % 256
    String.mk [base64Char (a1 / 4), base64Char (a1 % 4 * 16 + b1 / 16), base64Char (b1 % 16 * 4), '=']
  | a :: b :: c :: rest =>
    let a1 := a % 256
    let b1 := b % 256
    let c1 := c % 256
    String.mk [base64Char (a1 / 4), base64Char (a1 % 4 * 16 + b1 / 16),
      base64Char (b1 % 16 * 4 + c1 / 64), base64Char (c1 % 64)] ++ base64Encode rest

/-- The record assembled by `readCardData`.  The `photo` field is `Option` because
the source stores `photo || undefined`. -/
structure ThaiIDCardData where
  citizenId : String
  nameTh : String
  nameEn : String
  birthDate : String
  gender : String
  address : String
  issueDate : String
  expireDate : String
  photo : Option String
deriving DecidableEq

/-- Photo loop of `readCardData`: `for (let i = 0; i < 20; i++)` reading
`photoPartCmd(i)` via `sendAPDU`, breaking on the first failure.  Returns the parts
collected and the photo commands issued. -/
def photoLoop (ch : Channel) : Nat → Nat → List (List Nat) × List (List Nat)
  | 0, _ => ([], [])
  | fuel + 1, i =>
    match (sendAPDU ch (photoPartCmd i) 255 3).result with
    | Except.error _ => ([], [photoPartCmd i])
    | Except.ok part =>
      let rest := photoLoop ch fuel (i + 1)
      (part :: rest.1, photoPartCmd i :: rest.2)

/-- The adapter's `readCardData`: select the applet, read the eight fields in fixed
order, read photo chunks, then parse and assemble the record.  The second component
is the ordered list of commands handed to `sendAPDU` (the record-reader layer's
issue trace). -/
def readCardData (ch : Channel) : Except String ThaiIDCardData × List (List Nat) :=
  match (sendAPDU ch APDU_COMMANDS.SELECT 40 3).result with
  | Except.error e => (Except.error e, [APDU_COMMANDS.SELECT])
  | Except.ok _ =>
    match (sendAPDU ch APDU_COMMANDS.CID 40 3).result with
    | Except.error e => (Except.error e, [APDU_COMMANDS.SELECT, APDU_COMMANDS.CID])
    | Except.ok cidData =>
      match (sendAPDU ch APDU_COMMANDS.THAI_NAME 100 3).result with
      | Except.error e =>
        (Except.error e, [APDU_COMMANDS.SELECT, APDU_COMMANDS.CID, APDU_COMMANDS.THAI_NAME])
      | Except.ok nameThData =>
        match (sendAPDU ch APDU_COMMANDS.ENG_NAME 100 3).result with
        | Except.error e =>
          (Except.error e, [APDU_COMMANDS.SELECT, APDU_COMMANDS.CID, APDU_COMMANDS.THAI_NAME,
            APDU_COMMANDS.ENG_NAME])
        | Except.ok nameEnData =>
          match (sendAPDU ch APDU_COMMANDS.BIRTH 8 3).result with
          | Except.error e =>
            (Except.error e, [APDU_COMMANDS.SELECT, APDU_COMMANDS.CID, APDU_COMMANDS.THAI_NAME,
              APDU_COMMANDS.ENG_NAME, APDU_COMMANDS.BIRTH])
          | Except.ok birthData =>
            match (sendAPDU ch APDU_COMMANDS.GENDER 1 3).result with
            | Except.error e =>
              (Except.error e, [APDU_COMMANDS.SELECT, APDU_COMMANDS.CID, APDU_COMMANDS.THAI_NAME,
                APDU_COMMANDS.ENG_NAME, APDU_COMMANDS.BIRTH, APDU_COMMANDS.GENDER])
            | Except.ok genderData =>
              match (sendAPDU ch APDU_COMMANDS.ADDRESS 100 3).result with
              | Except.error e =>
                (Except.error e, [APDU_COMMANDS.SELECT, APDU_COMMANDS.CID, APDU_COMMANDS.THAI_NAME,
                  APDU_COMMANDS.ENG_NAME, APDU_COMMANDS.BIRTH, APDU_COMMANDS.GENDER,
                  APDU_COMMANDS.ADDRESS])
              | Except.ok addressData =>
                match (sendAPDU ch APDU_COMMANDS.ISSUE 8 3).result with
                | Except.error e =>
                  (Except.error e, [APDU_COMMANDS.SELECT, APDU_COMMANDS.CID,
                    APDU_COMMANDS.THAI_NAME, APDU_COMMANDS.ENG_NAME, APDU_COMMANDS.BIRTH,
                    APDU_COMMANDS.GENDER, APDU_COMMANDS.ADDRESS, APDU_COMMANDS.ISSUE])
                | Except.ok issueData =>
                  match (sendAPDU ch APDU_COMMANDS.EXPIRE 8 3).result with
                  | Except.error e =>
                    (Except.error e, [APDU_COMMANDS.SELECT, APDU_COMMANDS.CID,
                      APDU_COMMANDS.THAI_NAME, APDU_COMMANDS.ENG_NAME, APDU_COMMANDS.BIRTH,
                      APDU_COMMANDS.GENDER, APDU_COMMANDS.ADDRESS, APDU_COMMANDS.ISSUE,
                      APDU_COMMANDS.EXPIRE])
                  | Except.ok expireData =>
                    let photoRes := photoLoop ch 20 0
                    let gender := parseGender genderData
                    let photo :=
                      if 0 < photoRes.1.length then base64Encode photoRes.1.flatten else ""
                    (Except.ok
                      ⟨parseCitizenId cidData, parseThaiText nameThData, parseThaiText nameEnData,
                        formatDate birthData, (if gender = "" then "ชาย" else gender),
                        parseThaiText addressData, formatDate issueData, parseExpiry expireData,
                        (if photo = "" then none else some photo)⟩,
                      [APDU_COMMANDS.SELECT, APDU_COMMANDS.CID, APDU_COMMANDS.THAI_NAME,
                        APDU_COMMANDS.ENG_NAME, APDU_COMMANDS.BIRTH, APDU_COMMANDS.GENDER,
                        APDU_COMMANDS.ADDRESS, APDU_COMMANDS.ISSUE, APDU_COMMANDS.EXPIRE] ++
                        photoRes.2)

/-- Test whether `sub` starts the list `l` (JS `startsWith` on char lists). -/
def listStarts : List Char → List Char → Bool
  | _, [] => true
  | [], _ :: _ => false
  | a :: as, b :: bs => a == b && listStarts as bs

/-- Substring search on char lists: some tail of `l` starts with `sub`. -/
def listHasSub : List Char → List Char → Bool
  | [], sub => sub.isEmpty
  | a :: t, sub => listStarts (a :: t) sub || listHasSub t sub

/-- JS `s.includes(sub)`: `sub` occurs as a contiguous substring of `s`. -/
def strIncludes (s sub : String) : Bool :=
  listHasSub s.data sub.data

/-- Reader-selection logic of `readCard`: with a hint, `readers.find` of the first
reader equal to the hint, containing it, or contained in it, else the no-readers
error; without a hint, the first reader. -/
def selectReader (readers : List String) (readerName : Option String) : Except String String :=
  match readerName with
  | some name =>
    match readers.find? (fun r => r == name || strIncludes r name || strIncludes name r) with
    | some found => Except.ok found
    | none => Except.error ERROR_MESSAGES.NO_READERS
  | none =>
    match readers with
    | r :: _ => Except.ok r
    | [] => Except.error ERROR_MESSAGES.NO_READERS

/-- Catch-clause error mapping of `readCard`, keyed by substring matching on the
underlying message; an empty message falls back to the generic error. -/
def mapReadError (msg : String) : String :=
  if strIncludes msg "timeout" then ERROR_MESSAGES.TIMEOUT
  else if strIncludes msg "unpowered" || strIncludes msg "power" then ERROR_MESSAGES.CARD_NOT_POWERED
  else if strIncludes msg "unresponsive" || strIncludes msg "respond" then
    ERROR_MESSAGES.CARD_NOT_RESPONDING
  else if strIncludes msg "No card" || strIncludes msg ERROR_MESSAGES.NO_CARD then
    ERROR_MESSAGES.NO_CARD
  else if msg = "" then ERROR_MESSAGES.GENERIC_ERROR
  else msg

/-- Environment of one `readCard` call: the reader list, the `getStatus(...)` present
flag, the `waitForCard` outcome (a fault or the present flag of the returned status),
the `connect` outcome, and the channel of the connected card. -/
structure ReaderEnv where
  readers : List String
  present : String → Bool
  waitPresent : String → Except String Bool
  connectOk : String → Except String Unit
  channel : Channel

/-- The adapter's `readCard`: list readers, select one, wait for card presence,
connect, delegate to `readCardData`, map errors, and disconnect in the `finally`
block whenever `card` is non-null.  The second component counts `disconnect`
invocations. -/
def readCard (env : ReaderEnv) (readerName : Option String) :
    Except String ThaiIDCardData × Nat :=
  if env.readers.length = 0 then (Except.error ERROR_MESSAGES.NO_READERS, 0)
  else
    match selectReader env.readers readerName with
    | Except.error e => (Except.error e, 0)
    | Except.ok selectedReader =>
      let presentRes : Except String Bool :=
        if env.present selectedReader then Except.ok true
        else
          match env.waitPresent selectedReader with
          | Except.error _ => Except.error ERROR_MESSAGES.NO_CARD
          | Except.ok p => Except.ok p
      match presentRes with
      | Except.error e => (Except.error e, 0)
      | Except.ok p =>
        if !p then (Except.error ERROR_MESSAGES.NO_CARD, 0)
        else
          match env.connectOk selectedReader with
          | Except.error e => (Except.error (mapReadError e), 0)
          | Except.ok _ =>
            match (readCardData env.channel).1 with
            | Except.ok data => (Except.ok data, 1)
            | Except.error e => (Except.error (mapReadError e), 1)

/-- Concrete channel where every command succeeds with valid data except that the
gender buffer holds the unparseable byte 0x33 and every photo chunk read faults. -/
def c1Channel : Channel := fun cmd _ _ =>
  if cmd = APDU_COMMANDS.SELECT then Except.ok ⟨[], 0x90, 0⟩
  else if cmd = APDU_COMMANDS.CID then
    Except.ok ⟨[0x31, 0x32, 0x33, 0x34, 0x35, 0x36, 0x37, 0x38, 0x39, 0x30, 0x31, 0x32, 0x33], 0x90, 0⟩
  else if cmd = APDU_COMMANDS.THAI_NAME then Except.ok ⟨[0x41, 0x42], 0x90, 0⟩
  else if cmd = APDU_COMMANDS.ENG_NAME then Except.ok ⟨[0x43, 0x44], 0x90, 0⟩
  else if cmd = APDU_COMMANDS.BIRTH then
    Except.ok ⟨[0x32, 0x30, 0x32, 0x34, 0x30, 0x31, 0x31, 0x35], 0x90, 0⟩
  else if cmd = APDU_COMMANDS.GENDER then Except.ok ⟨[0x33], 0x90, 0⟩
  else if cmd = APDU_COMMANDS.ADDRESS then Except.ok ⟨[0x45], 0x90, 0⟩
  else if cmd = APDU_COMMANDS.ISSUE then
    Except.ok ⟨[0x32, 0x30, 0x32, 0x30, 0x30, 0x31, 0x30, 0x31], 0x90, 0⟩
  else if cmd = APDU_COMMANDS.EXPIRE then
    Except.ok ⟨[0x32, 0x30, 0x33, 0x30, 0x30, 0x31, 0x30, 0x31], 0x90, 0⟩
  else Except.error "photo read failed"

/-- Concrete channel that always answers with the error status word 0x6A82. -/
def c2Channel : Channel := fun _ _ _ => Except.ok ⟨[], 0x6A, 0x82⟩

/-- Concrete reader environment with one reader, a present card, a connectable
channel, and a channel that faults on every transmit. -/
def c3Env : ReaderEnv :=
  ⟨["ACS ACR39U ICC Reader"], fun _ => true, fun _ => Except.error "wait failed",
    fun _ => Except.ok (), fun _ _ _ => Except.error "channel fault"⟩

/-- Photo chunk data used by the partial-photo witness channel. -/
def c4d : Nat → List Nat := fun j =>
  if j = 0 then [1, 2] else if j = 1 then [3, 4] else if j = 2 then [5, 6] else []

/-- Concrete channel where select and all eight field reads succeed with valid
data, photo chunks 0, 1, 2 succeed, and chunk reads from index 3 on fault. -/
def c4Channel : Channel := fun cmd _ _ =>
  if cmd = APDU_COMMANDS.SELECT then Except.ok ⟨[], 0x90, 0⟩
  else if cmd = APDU_COMMANDS.CID then
    Except.ok ⟨[0x31, 0x32, 0x33, 0x34, 0x35, 0x36, 0x37, 0x38, 0x39, 0x30, 0x31, 0x32, 0x33], 0x90, 0⟩
  else if cmd = APDU_COMMANDS.THAI_NAME then Except.ok ⟨[0x41, 0x42], 0x90, 0⟩
  else if cmd = APDU_COMMANDS.ENG_NAME then Except.ok ⟨[0x43, 0x44], 0x90, 0⟩
  else if cmd = APDU_COMMANDS.BIRTH then
    Except.ok ⟨[0x32, 0x30, 0x32, 0x34, 0x30, 0x31, 0x31, 0x35], 0x90, 0⟩
  else if cmd = APDU_COMMANDS.GENDER then Except.ok ⟨[0x31], 0x90, 0⟩
  else if cmd = APDU_COMMANDS.ADDRESS then Except.ok ⟨[0x45], 0x90, 0⟩
  else if cmd = APDU_COMMANDS.ISSUE then
    Except.ok ⟨[0x32, 0x30, 0x32, 0x30, 0x30, 0x31, 0x30, 0x31], 0x90, 0⟩
  else if cmd = APDU_COMMANDS.EXPIRE then
    Except.ok ⟨[0x32, 0x30, 0x33, 0x30, 0x30, 0x31, 0x30, 0x31], 0x90, 0⟩
  else if cmd = photoPartCmd 0 then Except.ok ⟨c4d 0, 0x90, 0⟩
  else if cmd = photoPartCmd 1 then Except.ok ⟨c4d 1, 0x90, 0⟩
  else if cmd = photoPartCmd 2 then Except.ok ⟨c4d 2, 0x90, 0⟩
  else Except.error "photo read failed"

/-- Concrete channel identical to the partial-photo one except that already the
first photo chunk read faults. -/
def c4K0Channel : Channel := fun cmd len att =>
  if cmd = photoPartCmd 0 then Except.error "photo read failed" else c4Channel cmd len att

/-- Concrete channel that faults on the first two attempts of any command and
succeeds with a success status on the third. -/
def c5Channel : Channel := fun _ _ att =>
  if att < 2 then Except.error "transient fault" else Except.ok ⟨[0x01, 0x02], 0x90, 0⟩

/-- Concrete reader environment with a single reader for the selection witness. -/
def c10Env : ReaderEnv :=
  ⟨["ACS ACR39U ICC Reader"], fun _ => true, fun _ => Except.ok true, fun _ => Except.ok (),
    fun _ _ _ => Except.error "fault"⟩

/-- Claim-side shape test for a formatted date string: ten characters laid out
as digits with dashes at positions 4 and 7. -/
def isDigitChar (c : Char) : Bool :=
  decide (48 ≤ c.toNat) && decide (c.toNat ≤ 57)

/-- Decide whether a string has the YYYY-MM-DD shape. -/
def isYyyyMmDd (s : String) : Bool :=
  match s.data with
  | [y1, y2, y3, y4, dash1, m1, m2, dash2, d1, d2] =>
    isDigitChar y1 && isDigitChar y2 && isDigitChar y3 && isDigitChar y4 && dash1 == '-' &&
      isDigitChar m1 && isDigitChar m2 && dash2 == '-' && isDigitChar d1 && isDigitChar d2
  | _ => false

theorem toNat_charOfNat {n : Nat} (h : n < 0xd800) : (Char.ofNat n).toNat = n := by
  have hv : n.isValidChar := Or.inl h
  unfold Char.ofNat
  rw [dif_pos hv]
  rfl

theorem mem_jsTrim {c : Char} {s : String} (h : c ∈ (jsTrim s).data) : c ∈ s.data := by
  unfold jsTrim at h
  have h0 : c ∈ ((s.data.dropWhile isJsWhitespaceChar).reverse.dropWhile isJsWhitespaceChar).reverse := h
  rw [List.mem_reverse] at h0
  have h1 : c ∈ (s.data.dropWhile isJsWhitespaceChar).reverse :=
    (List.dropWhile_sublist _).subset h0
  rw [List.mem_reverse] at h1
  exact (List.dropWhile_sublist _).subset h1

theorem base64Encode_ne_empty : ∀ l : List Nat, l ≠ [] → base64Encode l ≠ ""
  | [], h => absurd rfl h
  | [_], _ => by simp [base64Encode, String.ext_iff]
  | [_, _], _ => by simp [base64Encode, String.ext_iff]
  | _ :: _ :: _ :: _, _ => by simp [base64Encode, String.ext_iff]

theorem sendAPDUAux_no_accept {ch : Channel} {cmd : List Nat} {len mr : Nat}
    (h : ∀ att r, ch cmd len att = Except.ok r → ¬acceptStatus r) :
    ∀ fuel attempt, ∃ e, (sendAPDUAux ch cmd len mr attempt fuel).result = Except.error e := by
  intro fuel
  induction fuel with
  | zero => intro attempt; exact ⟨_, rfl⟩
  | succ n ih =>
    intro attempt
    unfold sendAPDUAux
    cases hc : ch cmd len attempt with
    | ok r =>
      dsimp only
      rw [if_neg (h attempt r hc)]
      by_cases hlt : attempt < mr - 1
      · rw [if_pos hlt]
        simpa using ih (attempt + 1)
      · rw [if_neg hlt]
        exact ⟨_, rfl⟩
    | error e =>
      dsimp only
      by_cases hlt : attempt < mr - 1
      · rw [if_pos hlt]
        simpa using ih (attempt + 1)
      · rw [if_neg hlt]
        exact ⟨_, rfl⟩

theorem photoLoop_spec {ch : Channel} (d : Nat → List Nat) :
    ∀ (m i fuel : Nat), m < fuel →
      (∀ j, j < m → (sendAPDU ch (photoPartCmd (i + j)) 255 3).result = Except.ok (d (i + j))) →
      (∃ e, (sendAPDU ch (photoPartCmd (i + m)) 255 3).result = Except.error e) →
      (photoLoop ch fuel i).1 = (List.range m).map (fun j => d (i + j)) := by
  intro m
  induction m with
  | zero =>
    intro i fuel hfuel _ hfail
    obtain ⟨e, he⟩ := hfail
    rw [Nat.add_zero] at he
    cases fuel with
    | zero => omega
    | succ n =>
      unfold photoLoop
      rw [he]
      rfl
  | succ k ih =>
    intro i fuel hfuel hok hfail
    cases fuel with
    | zero => omega
    | succ n =>
      unfold photoLoop
      have h0 := hok 0 (Nat.succ_pos k)
      rw [Nat.add_zero] at h0
      rw [h0]
      dsimp only
      have hrec := ih (i + 1) n (by omega)
        (fun j hj => by
          have hx := hok (j + 1) (by omega)
          rwa [show i + (j + 1) = i + 1 + j by omega] at hx)
        (by
          obtain ⟨e, he⟩ := hfail
          exact ⟨e, by rwa [show i + (k + 1) = i + 1 + k by omega] at he⟩)
      simp only [hrec, List.range_succ_eq_map, List.map_cons, List.map_map, Nat.add_zero,
        List.cons.injEq, true_and]
      apply List.map_congr_left
      intro j _
      simp only [Function.comp]
      congr 1
      omega

theorem parseThaiText_allPad (bs : List Nat) (h : ∀ b ∈ bs, b = 0 ∨ b = 0x23) :
    parseThaiText bs = "" := by
  unfold parseThaiText
  by_cases hb : bs.length = 0
  · rw [if_pos hb]
  · rw [if_neg hb]
    have htrim : trimTrailingPad bs = [] := by
      unfold trimTrailingPad
      rw [List.reverse_eq_nil_iff, List.dropWhile_eq_nil_iff]
      intro x hx
      rcases h x (List.mem_reverse.mp hx) with h0 | h0 <;> simp [isPadByte, h0]
    simp [htrim]

theorem selectReader_ok_nonempty {readers : List String} {hint : Option String} {sel : String}
    (h : selectReader readers hint = Except.ok sel) : readers.length ≠ 0 := by
  cases hint with
  | some name =>
    unfold selectReader at h
    dsimp only at h
    cases hf : readers.find? (fun r => r == name || strIncludes r name || strIncludes name r) with
    | some found =>
      have := List.mem_of_find?_eq_some hf
      intro hlen
      rw [List.length_eq_zero] at hlen
      subst hlen
      cases this
    | none =>
      rw [hf] at h
      cases h
  | none =>
    unfold selectReader at h
    dsimp only at h
    cases readers with
    | nil => cases h
    | cons r rest => simp

theorem readCardData_fields {ch : Channel}
    {sd cid nth nen bir gen adr iss expi : List Nat}
    (hsel : (sendAPDU ch APDU_COMMANDS.SELECT 40 3).result = Except.ok sd)
    (hcid : (sendAPDU ch APDU_COMMANDS.CID 40 3).result = Except.ok cid)
    (hnth : (sendAPDU ch APDU_COMMANDS.THAI_NAME 100 3).result = Except.ok nth)
    (hnen : (sendAPDU ch APDU_COMMANDS.ENG_NAME 100 3).result = Except.ok nen)
    (hbir : (sendAPDU ch APDU_COMMANDS.BIRTH 8 3).result = Except.ok bir)
    (hgen : (sendAPDU ch APDU_COMMANDS.GENDER 1 3).result = Except.ok gen)
    (hadr : (sendAPDU ch APDU_COMMANDS.ADDRESS 100 3).result = Except.ok adr)
    (hiss : (sendAPDU ch APDU_COMMANDS.ISSUE 8 3).result = Except.ok iss)
    (hexp : (sendAPDU ch APDU_COMMANDS.EXPIRE 8 3).result = Except.ok expi) :
    (readCardData ch).1 = Except.ok
      ⟨parseCitizenId cid, parseThaiText nth, parseThaiText nen, formatDate bir,
        (if parseGender gen = "" then "ชาย" else parseGender gen), parseThaiText adr,
        formatDate iss, parseExpiry expi,
        (if (if 0 < (photoLoop ch 20 0).1.length then base64Encode (photoLoop ch 20 0).1.flatten
             else "") = ""
         then none
         else some (if 0 < (photoLoop ch 20 0).1.length
                    then base64Encode (photoLoop ch 20 0).1.flatten else ""))⟩ := by
  unfold readCardData
  rw [hsel, hcid, hnth, hnen, hbir, hgen, hadr, hiss, hexp]

theorem mem_tis620Fallback {c : Char} :
    ∀ {bs : List Nat}, c ∈ tis620Fallback bs →
      c.toNat ≤ 0x7F ∨ (0x0E00 ≤ c.toNat ∧ c.toNat ≤ 0x0E5A) := by
  intro bs
  induction bs with
  | nil => intro h; cases h
  | cons b rest ih =>
    intro h
    unfold tis620Fallback at h
    by_cases h1 : b < 0x80
    · rw [if_pos h1] at h
      by_cases h2 : 32 ≤ b ∨ b = 10 ∨ b = 13
      · rw [if_pos h2] at h
        rcases List.mem_cons.mp h with hc | hc
        · subst hc
          left
          rw [toNat_charOfNat (by omega)]
          omega
        · exact ih hc
      · rw [if_neg h2] at h
        exact ih h
    · rw [if_neg h1] at h
      by_cases h3 : 0xA1 ≤ b ∧ b ≤ 0xFB
      · rw [if_pos h3] at h
        rcases List.mem_cons.mp h with hc | hc
        · subst hc
          right
          rw [toNat_charOfNat (by omega)]
          omega
        · exact ih hc
      · rw [if_neg h3] at h
        exact ih h

/-- C6: `formatDate` maps any buffer with at least 8 ASCII bytes to the string
formed from those bytes laid out YYYYMMDD and joined with dashes, and maps any
buffer of fewer than 8 bytes to the empty string; it is total, so no decode
failure propagates. -/
theorem formatDate_spec :
    (∀ (y1 y2 y3 y4 m1 m2 d1 d2 : Nat) (rest : List Nat),
      y1 < 128 → y2 < 128 → y3 < 128 → y4 < 128 → m1 < 128 → m2 < 128 → d1 < 128 → d2 < 128 →
      formatDate (y1 :: y2 :: y3 :: y4 :: m1 :: m2 :: d1 :: d2 :: rest) =
        String.mk [Char.ofNat y1, Char.ofNat y2, Char.ofNat y3, Char.ofNat y4, '-',
          Char.ofNat m1, Char.ofNat m2, '-', Char.ofNat d1, Char.ofNat d2]) ∧
    (∀ data : List Nat, data.length < 8 → formatDate data = "") := by
  constructor
  · intro y1 y2 y3 y4 m1 m2 d1 d2 rest h1 h2 h3 h4 h5 h6 h7 h8
    unfold formatDate
    rw [if_neg (by simp)]
    apply String.ext
    simp [asciiDecode, String.data_append, Nat.mod_eq_of_lt h1, Nat.mod_eq_of_lt h2,
      Nat.mod_eq_of_lt h3, Nat.mod_eq_of_lt h4, Nat.mod_eq_of_lt h5, Nat.mod_eq_of_lt h6,
      Nat.mod_eq_of_lt h7, Nat.mod_eq_of_lt h8]
  · intro data h
    unfold formatDate
    rw [if_pos h]

theorem formatDate_spec_witness :
    formatDate [0x32, 0x30, 0x32, 0x34, 0x30, 0x31, 0x31, 0x35] = "2024-01-15" ∧
    formatDate [0x32, 0x30, 0x32, 0x34] = "" := by
  constructor
  · have h := formatDate_spec.1 0x32 0x30 0x32 0x34 0x30 0x31 0x31 0x35 []
      (by omega) (by omega) (by omega) (by omega) (by omega) (by omega) (by omega) (by omega)
    rw [h]
  · exact formatDate_spec.2 _ (by decide)

/-- C7: the fallback decode loop of `parseThaiText` computes exactly the per-byte
mapping of the claim (printable or line-break ASCII passes through, bytes in
[0xA1, 0xFB] map by fixed offset into the Thai block, all other bytes are
dropped), and every character of the fallback output, after the final trim, lies
in ASCII or in the Thai Unicode block; the decoder is a total function. -/
theorem tis620Fallback_spec :
    (∀ bs : List Nat, tis620Fallback bs = bs.filterMap fallbackByteSpec) ∧
    (∀ (bs : List Nat) (c : Char), c ∈ (parseThaiTextFallback bs).data →
      c.toNat ≤ 0x7F ∨ (0x0E00 ≤ c.toNat ∧ c.toNat ≤ 0x0E5A)) := by
  constructor
  · intro bs
    induction bs with
    | nil => rfl
    | cons b rest ih =>
      by_cases h1 : b < 0x80
      · by_cases h2 : 32 ≤ b ∨ b = 10 ∨ b = 13
        · simp [tis620Fallback, fallbackByteSpec, h1, h2, List.filterMap_cons, ih]
        · simp [tis620Fallback, fallbackByteSpec, h1, h2, List.filterMap_cons, ih]
      · by_cases h3 : 0xA1 ≤ b ∧ b ≤ 0xFB
        · simp [tis620Fallback, fallbackByteSpec, h1, h3, List.filterMap_cons, ih]
        · simp [tis620Fallback, fallbackByteSpec, h1, h3, List.filterMap_cons, ih]
  · intro bs c h
    unfold parseThaiTextFallback at h
    exact mem_tis620Fallback (mem_jsTrim h)

theorem tis620Fallback_spec_witness :
    tis620Fallback [0xA1, 0x41, 0x05, 0xFC] =
      [0xA1, 0x41, 0x05, 0xFC].filterMap fallbackByteSpec ∧
    Char.ofNat 0x41 ∈ (parseThaiTextFallback [0xA1, 0x41, 0x05, 0xFC]).data ∧
    ((Char.ofNat 0x41).toNat ≤ 0x7F ∨
      (0x0E00 ≤ (Char.ofNat 0x41).toNat ∧ (Char.ofNat 0x41).toNat ≤ 0x0E5A)) :=
  ⟨tis620Fallback_spec.1 _, by decide,
    tis620Fallback_spec.2 [0xA1, 0x41, 0x05, 0xFC] (Char.ofNat 0x41) (by decide)⟩

/-- C8: `parseThaiText` first trims all trailing 0x00 and 0x23 bytes before
decoding (appending any padding tail leaves the result unchanged), and any
buffer consisting entirely of 0x00 and 0x23 bytes decodes to the empty string. -/
theorem parseThaiText_padding_spec :
    (∀ bs : List Nat, (∀ b ∈ bs, b = 0 ∨ b = 0x23) → parseThaiText bs = "") ∧
    (∀ bs ps : List Nat, (∀ b ∈ ps, b = 0 ∨ b = 0x23) →
      parseThaiText (bs ++ ps) = parseThaiText bs) := by
  constructor
  · exact parseThaiText_allPad
  · intro bs ps hps
    have hdrop : ps.reverse.dropWhile isPadByte = [] := by
      rw [List.dropWhile_eq_nil_iff]
      intro x hx
      rcases hps x (List.mem_reverse.mp hx) with h0 | h0 <;> simp [isPadByte, h0]
    have htrim : trimTrailingPad (bs ++ ps) = trimTrailingPad bs := by
      unfold trimTrailingPad
      rw [List.reverse_append, List.dropWhile_append, hdrop]
      simp
    by_cases hbs : bs = []
    · subst hbs
      rw [List.nil_append, parseThaiText_allPad ps hps]
      rfl
    · have hbs0 : bs.length ≠ 0 := fun hb => hbs (List.length_eq_zero.mp hb)
      have hlen : (bs ++ ps).length ≠ 0 := by
        rw [List.length_append]
        omega
      unfold parseThaiText
      rw [if_neg hlen, if_neg hbs0, htrim]

theorem parseThaiText_padding_spec_witness :
    parseThaiText [0x00, 0x23, 0x00, 0x23, 0x00] = "" ∧
    parseThaiText ([0x41, 0x42] ++ [0x00, 0x23]) = parseThaiText [0x41, 0x42] :=
  ⟨parseThaiText_padding_spec.1 _ (by decide), parseThaiText_padding_spec.2 _ _ (by decide)⟩

/-- C9: the expiry field logic maps every non-empty buffer with leading byte 0 to
the lifetime sentinel, which is not a YYYY-MM-DD date string, and every non-empty
buffer with a nonzero leading byte through the date parser. -/
theorem parseExpiry_spec :
    (∀ rest : List Nat, parseExpiry (0 :: rest) = "ตลอดชีพ") ∧
    isYyyyMmDd "ตลอดชีพ" = false ∧
    (∀ (b : Nat) (rest : List Nat), b ≠ 0 → parseExpiry (b :: rest) = formatDate (b :: rest)) := by
  refine ⟨fun rest => rfl, by decide, fun b rest hb => ?_⟩
  unfold parseExpiry
  dsimp only
  rw [if_neg hb]

theorem parseExpiry_spec_witness :
    parseExpiry [0x00, 0x30, 0x33, 0x30, 0x30, 0x31, 0x30] = "ตลอดชีพ" ∧
    parseExpiry [0x32, 0x30, 0x33, 0x30, 0x30, 0x31, 0x30, 0x31] =
      formatDate [0x32, 0x30, 0x33, 0x30, 0x30, 0x31, 0x30, 0x31] :=
  ⟨parseExpiry_spec.1 _, parseExpiry_spec.2.2 _ _ (by decide)⟩

/-- C5: in `sendAPDU` with maxRetries 3, a (0x90, 0x00) or sw1 = 0x61 status is a
terminal outcome returning the data with no wait; any other status or a channel
fault adds one wait and continues with the next attempt; and a channel that
faults on the first two attempts and succeeds on the third yields the successful
data after exactly 2 waits. -/
theorem sendAPDU_retry_spec :
    (∀ (ch : Channel) (cmd : List Nat) (len : Nat) (r : TransmitResult),
      ch cmd len 0 = Except.ok r → acceptStatus r →
      sendAPDU ch cmd len 3 = ⟨Except.ok r.data, 0, 1⟩) ∧
    (∀ (ch : Channel) (cmd : List Nat) (len : Nat) (r : TransmitResult),
      ch cmd len 0 = Except.ok r → ¬acceptStatus r →
      (sendAPDU ch cmd len 3).result = (sendAPDUAux ch cmd len 3 1 2).result ∧
      (sendAPDU ch cmd len 3).waits = (sendAPDUAux ch cmd len 3 1 2).waits + 1) ∧
    (∀ (ch : Channel) (cmd : List Nat) (len : Nat) (e : String),
      ch cmd len 0 = Except.error e →
      (sendAPDU ch cmd len 3).result = (sendAPDUAux ch cmd len 3 1 2).result ∧
      (sendAPDU ch cmd len 3).waits = (sendAPDUAux ch cmd len 3 1 2).waits + 1) ∧
    (∀ (ch : Channel) (cmd : List Nat) (len : Nat) (e0 e1 : String) (r : TransmitResult),
      ch cmd len 0 = Except.error e0 → ch cmd len 1 = Except.error e1 →
      ch cmd len 2 = Except.ok r → acceptStatus r →
      (sendAPDU ch cmd len 3).result = Except.ok r.data ∧
      (sendAPDU ch cmd len 3).waits = 2) := by
  refine ⟨?_, ?_, ?_, ?_⟩
  · intro ch cmd len r h0 hacc
    unfold sendAPDU sendAPDUAux
    rw [h0]
    dsimp only
    rw [if_pos hacc]
  · intro ch cmd len r h0 hacc
    have s0 : sendAPDUAux ch cmd len 3 0 3 =
        ⟨(sendAPDUAux ch cmd len 3 1 2).result, (sendAPDUAux ch cmd len 3 1 2).waits + 1,
          (sendAPDUAux ch cmd len 3 1 2).transmits + 1⟩ := by
      conv_lhs => unfold sendAPDUAux
      rw [h0]
      dsimp only
      rw [if_neg hacc, if_pos (by omega : (0 : Nat) < 3 - 1)]
    rw [show sendAPDU ch cmd len 3 = sendAPDUAux ch cmd len 3 0 3 from rfl, s0]
    exact ⟨rfl, rfl⟩
  · intro ch cmd len e h0
    have s0 : sendAPDUAux ch cmd len 3 0 3 =
        ⟨(sendAPDUAux ch cmd len 3 1 2).result, (sendAPDUAux ch cmd len 3 1 2).waits + 1,
          (sendAPDUAux ch cmd len 3 1 2).transmits + 1⟩ := by
      conv_lhs => unfold sendAPDUAux
      rw [h0]
      dsimp only
      rw [if_pos (by omega : (0 : Nat) < 3 - 1)]
    rw [show sendAPDU ch cmd len 3 = sendAPDUAux ch cmd len 3 0 3 from rfl, s0]
    exact ⟨rfl, rfl⟩
  · intro ch cmd len e0 e1 r h0 h1 h2 hacc
    have s2 : sendAPDUAux ch cmd len 3 2 1 = ⟨Except.ok r.data, 0, 1⟩ := by
      unfold sendAPDUAux
      rw [h2]
      dsimp only
      rw [if_pos hacc]
    have s1 : sendAPDUAux ch cmd len 3 1 2 = ⟨Except.ok r.data, 1, 2⟩ := by
      conv_lhs => unfold sendAPDUAux
      rw [h1]
      dsimp only
      rw [if_pos (by omega : (1 : Nat) < 3 - 1)]
      simp only [show (1 : Nat) + 1 = 2 from rfl, s2]
    have s0 : sendAPDUAux ch cmd len 3 0 3 = ⟨Except.ok r.data, 2, 3⟩ := by
      conv_lhs => unfold sendAPDUAux
      rw [h0]
      dsimp only
      rw [if_pos (by omega : (0 : Nat) < 3 - 1)]
      simp only [show (0 : Nat) + 1 = 1 from rfl, s1]
    rw [show sendAPDU ch cmd len 3 = sendAPDUAux ch cmd len 3 0 3 from rfl, s0]
    exact ⟨rfl, rfl⟩

theorem sendAPDU_retry_spec_witness :
    (sendAPDU c5Channel APDU_COMMANDS.CID 40 3).result = Except.ok [0x01, 0x02] ∧
    (sendAPDU c5Channel APDU_COMMANDS.CID 40 3).waits = 2 :=
  sendAPDU_retry_spec.2.2.2 c5Channel APDU_COMMANDS.CID 40 "transient fault" "transient fault"
    ⟨[0x01, 0x02], 0x90, 0⟩ rfl rfl rfl (by decide)

/-- C2: when every transmit of the applet-select command yields a non-success
status, `readCardData` fails hard: the select is handed to `sendAPDU` exactly
once at the record-reader layer, the session result is an error, and no field
read command is ever issued. -/
theorem readCardData_select_failure {ch : Channel}
    (h : ∀ att r, ch APDU_COMMANDS.SELECT 40 att = Except.ok r → ¬acceptStatus r) :
    (∃ e, (readCardData ch).1 = Except.error e) ∧
    (readCardData ch).2 = [APDU_COMMANDS.SELECT] := by
  obtain ⟨e, he⟩ := sendAPDUAux_no_accept h 3 0
  have he' : (sendAPDU ch APDU_COMMANDS.SELECT 40 3).result = Except.error e := he
  unfold readCardData
  rw [he']
  exact ⟨⟨e, rfl⟩, rfl⟩

theorem readCardData_select_failure_witness :
    (∃ e, (readCardData c2Channel).1 = Except.error e) ∧
    (readCardData c2Channel).2 = [APDU_COMMANDS.SELECT] :=
  readCardData_select_failure (by
    intro att r h
    injection h with h2
    rw [← h2]
    decide)

/-- C3: whenever `readCard` reaches a successful `connect`, the card is
disconnected exactly once, on every exit path of the session, whatever the
channel then does (success, parse degradation, or transport fault). -/
theorem readCard_disconnect_once {env : ReaderEnv} {hint : Option String} {sel : String}
    (hsel : selectReader env.readers hint = Except.ok sel)
    (hpresent : env.present sel = true ∨ env.waitPresent sel = Except.ok true)
    (hconnect : env.connectOk sel = Except.ok ()) :
    (readCard env hint).2 = 1 := by
  have hne : ¬env.readers.length = 0 := selectReader_ok_nonempty hsel
  unfold readCard
  rw [if_neg hne, hsel]
  dsimp only
  rcases hpresent with hp | hw
  · simp only [hp, if_true, hconnect]
    cases hread : (readCardData env.channel).1 <;> simp [hread]
  · cases hp2 : env.present sel with
    | true =>
      simp only [if_true, hconnect]
      cases hread : (readCardData env.channel).1 <;> simp [hread]
    | false =>
      simp only [Bool.false_eq_true, if_false, hw, hconnect]
      cases hread : (readCardData env.channel).1 <;> simp [hread]

theorem readCard_disconnect_once_witness : (readCard c3Env none).2 = 1 :=
  readCard_disconnect_once rfl (Or.inl rfl) rfl

/-- C10: with a reader-name hint, `readCard` selects only a reader that equals
the hint, contains it as a substring, or is itself a substring of the hint; when
no available reader matches by any of the three rules it fails with the
no-readers error instead of falling back; without a hint it selects the first
available reader. -/
theorem selectReader_hint_spec :
    (∀ (readers : List String) (name r : String),
      selectReader readers (some name) = Except.ok r →
      r ∈ readers ∧ (r = name ∨ strIncludes r name = true ∨ strIncludes name r = true)) ∧
    (∀ (env : ReaderEnv) (name : String),
      (∀ r ∈ env.readers, r ≠ name ∧ strIncludes r name = false ∧ strIncludes name r = false) →
      (readCard env (some name)).1 = Except.error ERROR_MESSAGES.NO_READERS) ∧
    (∀ (first : String) (rest : List String),
      selectReader (first :: rest) none = Except.ok first) := by
  refine ⟨?_, ?_, ?_⟩
  · intro readers name r h
    unfold selectReader at h
    dsimp only at h
    cases hf : readers.find? (fun x => x == name || strIncludes x name || strIncludes name x) with
    | some found =>
      rw [hf] at h
      cases h
      constructor
      · exact List.mem_of_find?_eq_some hf
      · have hp := List.find?_some hf
        simp only [Bool.or_eq_true, beq_iff_eq] at hp
        rcases hp with (h1 | h2) | h3
        · exact Or.inl h1
        · exact Or.inr (Or.inl h2)
        · exact Or.inr (Or.inr h3)
    | none =>
      rw [hf] at h
      cases h
  · intro env name hno
    by_cases hlen : env.readers.length = 0
    · unfold readCard
      rw [if_pos hlen]
    · have hf : env.readers.find?
          (fun x => x == name || strIncludes x name || strIncludes name x) = none := by
        rw [List.find?_eq_none]
        intro x hx
        obtain ⟨hne, h1, h2⟩ := hno x hx
        simp [h1, h2, hne]
      unfold readCard
      rw [if_neg hlen]
      unfold selectReader
      dsimp only
      rw [hf]
  · intro first rest
    rfl

theorem selectReader_hint_spec_witness :
    ("ACS ACR39U ICC Reader" ∈ ["ACS ACR39U ICC Reader"] ∧
      ("ACS ACR39U ICC Reader" = "ACR39" ∨ strIncludes "ACS ACR39U ICC Reader" "ACR39" = true ∨
        strIncludes "ACR39" "ACS ACR39U ICC Reader" = true)) ∧
    (readCard c10Env (some "Gemalto")).1 = Except.error ERROR_MESSAGES.NO_READERS :=
  ⟨selectReader_hint_spec.1 ["ACS ACR39U ICC Reader"] "ACR39" "ACS ACR39U ICC Reader" rfl,
    selectReader_hint_spec.2.1 c10Env "Gemalto" (by decide)⟩

/-- C1 (amended): when the select and all eight field reads succeed,
`readCardData` always returns a record whose fields are the (possibly degraded)
parser outputs: a field whose buffer fails to parse degrades to the empty value
for every field except gender, which instead falls back to the default male
value, and a photo whose first chunk read fails is absent. -/
theorem readCardData_gender_defaults {ch : Channel}
    {sd cid nth nen bir gen adr iss expi : List Nat}
    (hsel : (sendAPDU ch APDU_COMMANDS.SELECT 40 3).result = Except.ok sd)
    (hcid : (sendAPDU ch APDU_COMMANDS.CID 40 3).result = Except.ok cid)
    (hnth : (sendAPDU ch APDU_COMMANDS.THAI_NAME 100 3).result = Except.ok nth)
    (hnen : (sendAPDU ch APDU_COMMANDS.ENG_NAME 100 3).result = Except.ok nen)
    (hbir : (sendAPDU ch APDU_COMMANDS.BIRTH 8 3).result = Except.ok bir)
    (hgen : (sendAPDU ch APDU_COMMANDS.GENDER 1 3).result = Except.ok gen)
    (hadr : (sendAPDU ch APDU_COMMANDS.ADDRESS 100 3).result = Except.ok adr)
    (hiss : (sendAPDU ch APDU_COMMANDS.ISSUE 8 3).result = Except.ok iss)
    (hexp : (sendAPDU ch APDU_COMMANDS.EXPIRE 8 3).result = Except.ok expi)
    (hgfail : parseGender gen = "")
    (hphoto : ∃ e, (sendAPDU ch (photoPartCmd 0) 255 3).result = Except.error e) :
    (readCardData ch).1 = Except.ok
      ⟨parseCitizenId cid, parseThaiText nth, parseThaiText nen, formatDate bir, "ชาย",
        parseThaiText adr, formatDate iss, parseExpiry expi, none⟩ := by
  rw [readCardData_fields hsel hcid hnth hnen hbir hgen hadr hiss hexp]
  have hpl : (photoLoop ch 20 0).1 = [] := by
    have h0 := photoLoop_spec (fun _ => ([] : List Nat)) 0 0 20 (by omega)
      (fun j hj => absurd hj (by omega)) (by simpa using hphoto)
    simpa using h0
  rw [hpl]
  simp [hgfail]

theorem readCardData_gender_defaults_witness :
    (readCardData c1Channel).1 = Except.ok
      ⟨"1234567890123", "AB", "CD", "2024-01-15", "ชาย", "E", "2020-01-01", "2030-01-01",
        none⟩ := by
  have h := @readCardData_gender_defaults c1Channel []
    [0x31, 0x32, 0x33, 0x34, 0x35, 0x36, 0x37, 0x38, 0x39, 0x30, 0x31, 0x32, 0x33]
    [0x41, 0x42] [0x43, 0x44] [0x32, 0x30, 0x32, 0x34, 0x30, 0x31, 0x31, 0x35] [0x33] [0x45]
    [0x32, 0x30, 0x32, 0x30, 0x30, 0x31, 0x30, 0x31] [0x32, 0x30, 0x33, 0x30, 0x30, 0x31, 0x30, 0x31]
    rfl rfl rfl rfl rfl rfl rfl rfl rfl rfl ⟨"photo read failed", rfl⟩
  rw [h]
  rfl

/-- C1 (counterexample): a successful read in which the gender buffer fails to
parse (byte 0x33) yields a record whose gender field is the default male value,
not the empty value the claim requires. -/
theorem readCardData_gender_empty_cx :
    parseGender [0x33] = "" ∧
    (readCardData c1Channel).1.toOption.map (fun r => r.gender) = some "ชาย" ∧
    ("ชาย" : String) ≠ "" := ⟨rfl, by decide, by decide⟩

/-- C4 (amended): when select and all eight field reads succeed with data whose
parses are non-empty, photo chunk reads succeed for indices 0..k-1 with at least
one data byte overall, and the read at index k fails (1 ≤ k < 20), then
`readCardData` surfaces no error and returns the record carrying all eight parsed
fields and, as photo, the base64 encoding of the concatenation of chunks 0..k-1
in index order; when instead the very first chunk read fails (k = 0) the photo
field is absent rather than the base64 encoding of the empty concatenation. -/
theorem readCardData_partial_photo {ch : Channel}
    {sd cid nth nen bir gen adr iss expi : List Nat}
    (k : Nat) (d : Nat → List Nat)
    (hsel : (sendAPDU ch APDU_COMMANDS.SELECT 40 3).result = Except.ok sd)
    (hcid : (sendAPDU ch APDU_COMMANDS.CID 40 3).result = Except.ok cid)
    (hnth : (sendAPDU ch APDU_COMMANDS.THAI_NAME 100 3).result = Except.ok nth)
    (hnen : (sendAPDU ch APDU_COMMANDS.ENG_NAME 100 3).result = Except.ok nen)
    (hbir : (sendAPDU ch APDU_COMMANDS.BIRTH 8 3).result = Except.ok bir)
    (hgen : (sendAPDU ch APDU_COMMANDS.GENDER 1 3).result = Except.ok gen)
    (hadr : (sendAPDU ch APDU_COMMANDS.ADDRESS 100 3).result = Except.ok adr)
    (hiss : (sendAPDU ch APDU_COMMANDS.ISSUE 8 3).result = Except.ok iss)
    (hexp : (sendAPDU ch APDU_COMMANDS.EXPIRE 8 3).result = Except.ok expi)
    (hk1 : 1 ≤ k) (hk : k < 20)
    (hok : ∀ j, j < k → (sendAPDU ch (photoPartCmd j) 255 3).result = Except.ok (d j))
    (hfail : ∃ e, (sendAPDU ch (photoPartCmd k) 255 3).result = Except.error e)
    (hdata : ((List.range k).map d).flatten ≠ [])
    (hgenne : parseGender gen ≠ "") :
    (readCardData ch).1 = Except.ok
      ⟨parseCitizenId cid, parseThaiText nth, parseThaiText nen, formatDate bir,
        parseGender gen, parseThaiText adr, formatDate iss, parseExpiry expi,
        some (base64Encode ((List.range k).map d).flatten)⟩ := by
  rw [readCardData_fields hsel hcid hnth hnen hbir hgen hadr hiss hexp]
  have hpl : (photoLoop ch 20 0).1 = (List.range k).map d := by
    have h0 := photoLoop_spec d k 0 20 hk
      (fun j hj => by simpa using hok j hj)
      (by simpa using hfail)
    simpa using h0
  rw [hpl]
  have hlen : 0 < ((List.range k).map d).length := by
    simp
    omega
  have hb64 := base64Encode_ne_empty _ hdata
  simp [hlen, hb64, hgenne]
  constructor
  · omega
  · intro h0
    exact absurd h0 (by omega)

theorem readCardData_partial_photo_witness :
    (readCardData c4Channel).1 = Except.ok
      ⟨"1234567890123", "AB", "CD", "2024-01-15", "ชาย", "E", "2020-01-01", "2030-01-01",
        some "AQIDBAUG"⟩ := by
  have h := @readCardData_partial_photo c4Channel []
    [0x31, 0x32, 0x33, 0x34, 0x35, 0x36, 0x37, 0x38, 0x39, 0x30, 0x31, 0x32, 0x33]
    [0x41, 0x42] [0x43, 0x44] [0x32, 0x30, 0x32, 0x34, 0x30, 0x31, 0x31, 0x35] [0x31] [0x45]
    [0x32, 0x30, 0x32, 0x30, 0x30, 0x31, 0x30, 0x31] [0x32, 0x30, 0x33, 0x30, 0x30, 0x31, 0x30, 0x31]
    3 c4d rfl rfl rfl rfl rfl rfl rfl rfl rfl (by omega) (by omega)
    (by
      intro j hj
      interval_cases j <;> rfl)
    ⟨"photo read failed", rfl⟩ (by decide) (by decide)
  rw [h]
  rfl

/-- C4 (counterexample): with valid field data but a photo read failing at the
very first chunk (k = 0), the returned record carries no photo value at all,
while the base64 encoding of the empty concatenation of chunks 0..k-1 is the
empty string — so the photo field is not that base64 encoding. -/
theorem readCardData_partial_photo_cx :
    (readCardData c4K0Channel).1.toOption.map (fun r => r.photo) = some none ∧
    base64Encode (([] : List (List Nat)).flatten) = "" ∧
    (readCardData c4K0Channel).1.toOption.map (fun r => r.citizenId) = some "1234567890123" :=
  ⟨by decide, rfl, by decide⟩
